import Mathlib

/-!
Verification of the Cognee memory orchestration service
(`src/services/memory_service.py`) against its design document.

Modelling choices:
* Python strings are embedded as `List Char` (written via `"...".toList`),
  so that `str.replace` — which replaces **all** non-overlapping
  occurrences, scanning left to right — can be given an exact executable
  model (`replaceAll`).
* Timestamps (`time.time()`) are embedded as `Int`; the code only
  compares differences of timestamps with the window constant `30`.
* The Cognee engine is an external black box; its behaviour during one
  request is passed in as parameters (which `add` calls fail, whether
  `cognify` fails, what `search` returns).  Every engine invocation an
  operation performs is recorded in a trace of `EngineOp`s.
* A raised `HTTPException(status_code, detail)` is embedded as an
  `Except HttpError _` result; state and trace are returned alongside.
-/

namespace MemoryService

/-- Python strings are modelled as lists of characters. -/
abbrev Str := List Char

/-! ## Tenant tagger (memory_service.py lines 181-184, 251, 269) -/

/-- The world marker `"[WORLD:<world_id>] "` used to tag facts and queries. -/
def worldTag (world_id : Str) : Str :=
  "[WORLD:".toList ++ world_id ++ "] ".toList

/-- Line 182: `f"[WORLD:{request.world_id}] {fact}"`. -/
def tagFact (world_id fact : Str) : Str :=
  worldTag world_id ++ fact

/-- Recursion worker for `replaceAll`, structurally recursive on a fuel
bound so that it evaluates in the kernel; `fuel ≥ s.length` makes the
fuel-exhausted branch unreachable (`replaceAllFuel_congr`). -/
def replaceAllFuel (pat new : Str) : Nat → Str → Str
  | _, [] => []
  | 0, s => s
  | fuel + 1, c :: rest =>
    if pat ≠ [] ∧ pat.isPrefixOf (c :: rest) then
      new ++ replaceAllFuel pat new fuel (List.drop (pat.length - 1) rest)
    else
      c :: replaceAllFuel pat new fuel rest

/-- Exact model of Python `s.replace(pat, new)` for a non-empty pattern:
scan left to right, replace each non-overlapping occurrence, resume
scanning after the replaced occurrence.  (The service only calls it with
the non-empty pattern `"[WORLD:<id>] "`.) -/
def replaceAll (pat new s : Str) : Str :=
  replaceAllFuel pat new s.length s

/-- Line 269: `text.replace(f"[WORLD:{request.world_id}] ", "")`. -/
def untagText (world_id text : Str) : Str :=
  replaceAll (worldTag world_id) [] text

/-- Whether `pat` occurs as a contiguous substring of `s`. -/
def occursIn (pat s : Str) : Bool :=
  match s with
  | [] => pat.isEmpty
  | _ :: rest => pat.isPrefixOf s || occursIn pat rest

/-! ## Global service state (memory_service.py lines 35, 95-96) -/

/-- The module-level mutable state of the service:
`_cognee_initialized` (line 95), `_last_cognify_time` (line 35, initial
value `0`), and `_world_memories` (line 96), a dict embedded as an
association list (Python dicts have unique keys). -/
structure ServiceState where
  cognee_initialized : Bool
  last_cognify_time : Int
  world_memories : List (Str × List Str)
deriving DecidableEq

/-- One invocation of the external Cognee engine. -/
inductive EngineOp
  | add (text : Str)
  | cognify
  | search (mode query : Str)
deriving DecidableEq

/-- Equality of embedded handler results (`Except`) is decidable, so
concrete runs of the handlers can be checked by evaluation. -/
instance exceptDecEq {ε α : Type} [DecidableEq ε] [DecidableEq α] :
    DecidableEq (Except ε α) := fun a b =>
  match a, b with
  | Except.error e, Except.error e' =>
    if h : e = e' then Decidable.isTrue (by rw [h])
    else Decidable.isFalse (by intro hc; cases hc; exact h rfl)
  | Except.error _, Except.ok _ => Decidable.isFalse (by intro hc; cases hc)
  | Except.ok _, Except.error _ => Decidable.isFalse (by intro hc; cases hc)
  | Except.ok v, Except.ok v' =>
    if h : v = v' then Decidable.isTrue (by rw [h])
    else Decidable.isFalse (by intro hc; cases hc; exact h rfl)

/-- A raised `HTTPException(status_code=..., detail=...)`. -/
structure HttpError where
  status_code : Nat
  detail : Str
deriving DecidableEq

/-- The `detail` of the 503 raised when Cognee is not ready
(lines 171-175, 241-245, 304-308). -/
def notReadyDetail : Str :=
  "Cognee not initialized. Check service logs.".toList

/-! ## Dictionary operations on `_world_memories` -/

/-- `mem[w]` / `w in mem`: first binding of `w` in the association list. -/
def lookupWorld : List (Str × List Str) → Str → Option (List Str)
  | [], _ => none
  | (k, v) :: rest, w => if k = w then some v else lookupWorld rest w

/-- Lines 201-203: `if w not in mem: mem[w] = []` then `mem[w].extend(facts)`. -/
def recordWrite : List (Str × List Str) → Str → List Str → List (Str × List Str)
  | [], w, facts => [(w, facts)]
  | (k, v) :: rest, w, facts =>
    if k = w then (k, v ++ facts) :: rest
    else (k, v) :: recordWrite rest w facts

/-- Lines 314-316: `if w in mem: del mem[w]` (removes the binding of `w`). -/
def eraseWorld : List (Str × List Str) → Str → List (Str × List Str)
  | [], _ => []
  | (k, v) :: rest, w => if k = w then rest else (k, v) :: eraseWorld rest w

/-! ## Rebuild coalescer (memory_service.py lines 191-198)

Lines 192-196 read `now = time.time()`, grant a cognify when
`now - _last_cognify_time > 30`, and — after the granted
`await cognee.cognify()` returns — set `_last_cognify_time = now`.
`shouldRebuildNow` is that watermark logic on the success path of the
granted rebuild: `(granted?, new watermark)`. -/
def shouldRebuildNow (now last : Int) : Bool × Int :=
  if now - last > 30 then (true, now) else (false, last)

/-! ## Response models (memory_service.py lines 66-92) -/

structure RememberResponse where
  success : Bool
  world_id : Str
  facts_stored : Nat
  message : Str
deriving DecidableEq

structure RecallResponse where
  success : Bool
  world_id : Str
  query : Str
  results : List Str
  count : Nat
deriving DecidableEq

structure ClearWorldResponse where
  success : Bool
  world_id : Str
  message : Str
deriving DecidableEq

structure HealthResponse where
  status : Str
  service : Str
  timestamp : Str
  cognee_initialized : Bool
deriving DecidableEq

/-! ## Engine behaviour parameters

The engine is external; one request's interaction with it is determined
by: which `cognee.add(text)` calls raise (and with what `str(e)`),
whether `cognee.cognify()` raises, and what `cognee.search` returns.
An exception's `str(e)` is its message `Str`. -/

/-- Line 187-188: `for fact in tagged_facts: await cognee.add(fact)` —
runs the adds in order, stopping at the first that raises.  Returns the
first exception message (if any) and the trace of engine calls made
(a raising `add` was still invoked, so it appears in the trace). -/
def addLoop (addErr : Str → Option Str) : List Str → Option Str × List EngineOp
  | [] => (none, [])
  | t :: rest =>
    match addErr t with
    | some e => (some e, [EngineOp.add t])
    | none =>
      let r := addLoop addErr rest
      (r.1, EngineOp.add t :: r.2)

/-! ## The endpoint handlers -/

/-- `POST /remember` (lines 150-220).  Control flow of the source:
readiness gate (503), tag each fact, `cognee.add` each tagged fact,
coalesced `cognee.cognify` with watermark update after success, record
the raw facts in `_world_memories`, return the success response; any
exception inside the `try` surfaces as a 500 whose detail is
`"Failed to store facts: " + str(e)`. -/
def remember (addErr : Str → Option Str) (cognifyErr : Option Str)
    (now : Int) (world_id : Str) (facts : List Str) (st : ServiceState) :
    Except HttpError RememberResponse × ServiceState × List EngineOp :=
  if st.cognee_initialized = false then
    (Except.error ⟨503, notReadyDetail⟩, st, [])
  else
    match addLoop addErr (facts.map (fun fact => tagFact world_id fact)) with
    | (some e, tr) =>
      (Except.error ⟨500, "Failed to store facts: ".toList ++ e⟩, st, tr)
    | (none, tr) =>
      if now - st.last_cognify_time > 30 then
        match cognifyErr with
        | some e =>
          (Except.error ⟨500, "Failed to store facts: ".toList ++ e⟩, st,
            tr ++ [EngineOp.cognify])
        | none =>
          (Except.ok ⟨true, world_id, facts.length,
              "Successfully stored ".toList ++ (toString facts.length).toList
                ++ " facts".toList⟩,
            { st with
              last_cognify_time := now,
              world_memories := recordWrite st.world_memories world_id facts },
            tr ++ [EngineOp.cognify])
      else
        (Except.ok ⟨true, world_id, facts.length,
            "Successfully stored ".toList ++ (toString facts.length).toList
              ++ " facts".toList⟩,
          { st with
            world_memories := recordWrite st.world_memories world_id facts },
          tr)

/-- `POST /recall` (lines 222-288).  Readiness gate (503); builds the
search query `"[WORLD:<id>] <query>"` (line 251, the same form as
`tagFact`); `cognee.search("INSIGHTS", query)` either raises (500 with
detail `"Failed to query facts: " + str(e)`) or returns raw results,
modelled as the already-extracted text of each item (the
`hasattr/'text'` extraction of lines 261-266 is identity on text
results); the first `limit` texts are untagged and returned. -/
def «recall» (searchRes : Except Str (List Str))
    (world_id query : Str) (limit : Nat) (st : ServiceState) :
    Except HttpError RecallResponse × ServiceState × List EngineOp :=
  if st.cognee_initialized = false then
    (Except.error ⟨503, notReadyDetail⟩, st, [])
  else
    let searchQuery := tagFact world_id query
    match searchRes with
    | Except.error e =>
      (Except.error ⟨500, "Failed to query facts: ".toList ++ e⟩, st,
        [EngineOp.search "INSIGHTS".toList searchQuery])
    | Except.ok raw =>
      let results := (raw.take limit).map (fun t => untagText world_id t)
      (Except.ok ⟨true, world_id, query, results, results.length⟩, st,
        [EngineOp.search "INSIGHTS".toList searchQuery])

/-- `DELETE /clear_world/{world_id}` (lines 290-337).  Readiness gate
(503); deletes the world's `_world_memories` entry if present (the held
fact count is only computed for the log line 315-317); no engine call is
made (lines 319-321); returns the success response, whose message does
not depend on the cache contents. -/
def clear_world (world_id : Str) (st : ServiceState) :
    Except HttpError ClearWorldResponse × ServiceState × List EngineOp :=
  if st.cognee_initialized = false then
    (Except.error ⟨503, notReadyDetail⟩, st, [])
  else
    (Except.ok ⟨true, world_id,
        "Cleared memory cache for world ".toList ++ world_id⟩,
      { st with world_memories := eraseWorld st.world_memories world_id },
      [])

/-- The count the code computes at line 315 for its `"Cleared N cached
facts"` log line (0 when the entry is absent: the code then skips the
log, clearing nothing). -/
def loggedClearCount (st : ServiceState) (world_id : Str) : Nat :=
  ((lookupWorld st.world_memories world_id).getD []).length

/-- `GET /health` (lines 137-148).  A total function — it cannot fail —
whose status is `"healthy"`/`"unhealthy"` by the readiness flag; the
timestamp (`datetime.utcnow().isoformat()`) is passed in. -/
def health_check (timestamp : Str) (st : ServiceState) : HealthResponse :=
  ⟨(if st.cognee_initialized then "healthy" else "unhealthy").toList,
    "cognee-memory-service".toList, timestamp, st.cognee_initialized⟩

/-! ## Interleaving model of the coalescer under concurrency

The service runs on an asyncio event loop: code between `await` points
executes atomically, and every `await` is a point where another request
handler may run.  In the coalescer section of `remember` the decision
`now - _last_cognify_time > 30` and the start of `await cognee.cognify()`
(lines 192-195) form one atomic segment; the watermark assignment
`_last_cognify_time = now` (line 196) only runs after the awaited
cognify has completed, in a second atomic segment.  Two concurrent
`remember` handlers that have both passed their `add` loops are modelled
as two tasks over the shared watermark, counting how many times
`cognee.cognify()` is invoked. -/

/-- Where a handler stands in the coalescer section: before the check,
suspended inside `await cognee.cognify()`, or past the section. -/
inductive CoalescePC
  | atCheck
  | inCognifyAwait
  | finished
deriving DecidableEq

/-- One `remember` handler's coalescer section: its program counter and
the `now` it read from `time.time()` at line 192. -/
structure CoalesceTask where
  pc : CoalescePC
  now : Int
deriving DecidableEq

/-- The shared data of the interleaving model: the watermark
`_last_cognify_time` and the number of `cognee.cognify()` invocations
made so far. -/
structure SharedCoalesce where
  last_cognify_time : Int
  cognify_count : Nat
deriving DecidableEq

/-- Run one atomic segment of one task.  `atCheck` performs lines
192-195: evaluate the window test against the shared watermark and, if
granted, invoke `cognee.cognify()` (counted) and suspend at the `await`;
if denied, skip to the end.  `inCognifyAwait` performs line 196 on
resumption: write `now` into the shared watermark. -/
def stepCoalesce (sh : SharedCoalesce) (t : CoalesceTask) :
    SharedCoalesce × CoalesceTask :=
  match t.pc with
  | CoalescePC.atCheck =>
    if t.now - sh.last_cognify_time > 30 then
      (⟨sh.last_cognify_time, sh.cognify_count + 1⟩,
        ⟨CoalescePC.inCognifyAwait, t.now⟩)
    else
      (sh, ⟨CoalescePC.finished, t.now⟩)
  | CoalescePC.inCognifyAwait =>
    (⟨t.now, sh.cognify_count⟩, ⟨CoalescePC.finished, t.now⟩)
  | CoalescePC.finished => (sh, t)

/-- Two concurrent handlers over the shared coalescer state. -/
structure CoalesceWorld where
  shared : SharedCoalesce
  task1 : CoalesceTask
  task2 : CoalesceTask
deriving DecidableEq

/-- Run one atomic segment of the scheduled task (`true` = task 1). -/
def schedStep (w : CoalesceWorld) (pickTask1 : Bool) : CoalesceWorld :=
  if pickTask1 then
    let r := stepCoalesce w.shared w.task1
    ⟨r.1, r.2, w.task2⟩
  else
    let r := stepCoalesce w.shared w.task2
    ⟨r.1, w.task1, r.2⟩

/-- Run a schedule (a list of task picks) from a world. -/
def runSched (picks : List Bool) (w : CoalesceWorld) : CoalesceWorld :=
  picks.foldl schedStep w

/-! ## Supporting lemmas -/

theorem worldTag_ne_nil (w : Str) : worldTag w ≠ [] := by
  simp [worldTag]

theorem replaceAllFuel_nil (pat new : Str) (fuel : Nat) :
    replaceAllFuel pat new fuel [] = [] := by
  cases fuel <;> rfl

theorem replaceAllFuel_congr (pat new : Str) :
    ∀ (f₁ : Nat) (s : Str) (f₂ : Nat), s.length ≤ f₁ → s.length ≤ f₂ →
      replaceAllFuel pat new f₁ s = replaceAllFuel pat new f₂ s := by
  intro f₁
  induction f₁ with
  | zero =>
    intro s f₂ h₁ _
    rw [List.length_eq_zero.mp (Nat.le_zero.mp h₁), replaceAllFuel_nil,
      replaceAllFuel_nil]
  | succ f ih =>
    intro s f₂ h₁ h₂
    cases s with
    | nil => rw [replaceAllFuel_nil, replaceAllFuel_nil]
    | cons c rest =>
      cases f₂ with
      | zero => simp at h₂
      | succ g =>
        simp only [List.length_cons, Nat.succ_le_succ_iff] at h₁ h₂
        rw [replaceAllFuel, replaceAllFuel]
        by_cases hc : pat ≠ [] ∧ pat.isPrefixOf (c :: rest)
        · rw [if_pos hc, if_pos hc]
          exact congrArg (fun t => new ++ t)
            (ih (List.drop (pat.length - 1) rest) g
              (by simp only [List.length_drop]; omega)
              (by simp only [List.length_drop]; omega))
        · rw [if_neg hc, if_neg hc, ih _ _ h₁ h₂]

theorem replaceAll_append_pat (pat new s : Str) (hpat : pat ≠ []) :
    replaceAll pat new (pat ++ s) = new ++ replaceAll pat new s := by
  cases pat with
  | nil => exact absurd rfl hpat
  | cons p ps =>
    rw [replaceAll]
    have hlen : ((p :: ps) ++ s).length = ps.length + s.length + 1 := by
      simp only [List.length_append, List.length_cons]
      omega
    rw [hlen, List.cons_append, replaceAllFuel]
    have hpre : (p :: ps).isPrefixOf (p :: ps ++ s) := by
      rw [List.isPrefixOf_iff_prefix]
      exact ⟨s, rfl⟩
    rw [if_pos ⟨hpat, by rw [List.cons_append] at hpre; exact hpre⟩]
    have hdrop : List.drop ((p :: ps).length - 1) (ps ++ s) = s := by
      simp only [List.length_cons, Nat.add_sub_cancel]
      exact List.drop_left ps s
    rw [hdrop, replaceAll,
      replaceAllFuel_congr (p :: ps) new (ps.length + s.length) s s.length
        (Nat.le_add_left _ _) (le_refl _)]

theorem replaceAll_of_not_occursIn (pat new s : Str)
    (h : occursIn pat s = false) : replaceAll pat new s = s := by
  rw [replaceAll]
  generalize hf : s.length = fuel
  have hle : s.length ≤ fuel := le_of_eq hf
  clear hf
  induction fuel generalizing s with
  | zero =>
    rw [List.length_eq_zero.mp (Nat.le_zero.mp hle), replaceAllFuel_nil]
  | succ f ih =>
    cases s with
    | nil => rw [replaceAllFuel_nil]
    | cons c rest =>
      rw [occursIn, Bool.or_eq_false_iff] at h
      simp only [List.length_cons, Nat.succ_le_succ_iff] at hle
      rw [replaceAllFuel, if_neg (by intro hc; rw [hc.2] at h; simp at h),
        ih rest h.2 hle]

/-- Round trip of the tagger for facts free of the marker. -/
theorem untag_tag (w f : Str) (h : occursIn (worldTag w) f = false) :
    untagText w (tagFact w f) = f := by
  rw [untagText, tagFact, replaceAll_append_pat _ _ _ (worldTag_ne_nil w),
    List.nil_append, replaceAll_of_not_occursIn _ _ _ h]

theorem addLoop_allOk (ts : List Str) :
    addLoop (fun _ => none) ts = (none, ts.map EngineOp.add) := by
  induction ts with
  | nil => rfl
  | cons t rest ih => simp [addLoop, ih]

theorem cognify_not_mem_map_add (ts : List Str) :
    EngineOp.cognify ∉ ts.map EngineOp.add := by
  simp [List.mem_map]

theorem lookupWorld_eraseWorld_ne (mem : List (Str × List Str)) (w w' : Str)
    (h : w' ≠ w) :
    lookupWorld (eraseWorld mem w) w' = lookupWorld mem w' := by
  induction mem with
  | nil => rfl
  | cons kv rest ih =>
    obtain ⟨k, v⟩ := kv
    by_cases hk : k = w
    · subst hk
      rw [eraseWorld, if_pos rfl, lookupWorld,
        if_neg (fun hc : k = w' => h hc.symm)]
    · rw [eraseWorld, if_neg hk, lookupWorld, lookupWorld]
      by_cases hk' : k = w'
      · rw [if_pos hk', if_pos hk']
      · rw [if_neg hk', if_neg hk', ih]

theorem lookupWorld_eq_none_of_not_mem (mem : List (Str × List Str)) (w : Str)
    (h : w ∉ mem.map Prod.fst) : lookupWorld mem w = none := by
  induction mem with
  | nil => rfl
  | cons kv rest ih =>
    obtain ⟨k, v⟩ := kv
    simp only [List.map_cons, List.mem_cons, not_or] at h
    rw [lookupWorld, if_neg (fun hc => h.1 hc.symm), ih h.2]

theorem eraseWorld_of_lookup_none (mem : List (Str × List Str)) (w : Str)
    (h : lookupWorld mem w = none) : eraseWorld mem w = mem := by
  induction mem with
  | nil => rfl
  | cons kv rest ih =>
    obtain ⟨k, v⟩ := kv
    rw [lookupWorld] at h
    by_cases hk : k = w
    · rw [if_pos hk] at h
      cases h
    · rw [if_neg hk] at h
      rw [eraseWorld, if_neg hk, ih h]

theorem lookupWorld_eraseWorld_self (mem : List (Str × List Str)) (w : Str)
    (h : (mem.map Prod.fst).Nodup) :
    lookupWorld (eraseWorld mem w) w = none := by
  induction mem with
  | nil => rfl
  | cons kv rest ih =>
    obtain ⟨k, v⟩ := kv
    simp only [List.map_cons, List.nodup_cons] at h
    by_cases hk : k = w
    · rw [eraseWorld, if_pos hk]
      exact lookupWorld_eq_none_of_not_mem rest w (hk ▸ h.1)
    · rw [eraseWorld, if_neg hk, lookupWorld, if_neg hk, ih h.2]

/-! ## The claims -/

/-- C1, counterexample to the claim as stated: the claim says a call is
granted exactly when `now - lastRebuildTimestamp ≥ 30`, but at an
elapsed time of exactly 30 (watermark 0, `now = 30`) the code's strict
test `now - _last_cognify_time > 30` (line 193) denies the call and
leaves the watermark untouched; a full `remember` at that instant makes
no `cognify` call. -/
theorem coalescer_at_exact_window_denied :
    (30 : Int) - 0 ≥ 30 ∧
    shouldRebuildNow 30 0 = (false, 0) ∧
    EngineOp.cognify ∉
      (remember (fun _ => none) none 30 "w".toList ["a".toList]
        ⟨true, 0, []⟩).2.2 := by
  refine ⟨by decide, by decide, by decide⟩

/-- C1 (amended: the window test is strict, `now - lastRebuildTimestamp
> 30`, so a call at elapsed time exactly 30 is denied): the coalescer
grants a call exactly when `now - last > 30`; on a grant the watermark
becomes `now` and the rebuild is triggered, otherwise the watermark is
untouched and no rebuild happens.  With the watermark at its initial
value 0 and `t0` strictly past the window, the call at `t0` is granted
and sets the watermark to `t0`, a call at `t0+10` is denied, and a call
at `t0+31` is granted.  The last conjunct ties this to `remember`: in a
ready state whose engine calls all succeed, `cognee.cognify` is invoked
iff the strict window test passes, and the resulting watermark is the
coalescer's. -/
theorem coalescer_strict_window_grant (t0 : Int) (ht0 : t0 > 30) :
    shouldRebuildNow t0 0 = (true, t0) ∧
    shouldRebuildNow (t0 + 10) t0 = (false, t0) ∧
    shouldRebuildNow (t0 + 31) t0 = (true, t0 + 31) ∧
    (∀ now last : Int,
      ((shouldRebuildNow now last).1 = true ↔ now - last > 30) ∧
      ((shouldRebuildNow now last).1 = true →
        (shouldRebuildNow now last).2 = now) ∧
      ((shouldRebuildNow now last).1 = false →
        (shouldRebuildNow now last).2 = last)) ∧
    (∀ (st : ServiceState) (now : Int) (w : Str) (facts : List Str),
      st.cognee_initialized = true →
      ((EngineOp.cognify ∈
          (remember (fun _ => none) none now w facts st).2.2) ↔
        now - st.last_cognify_time > 30) ∧
      (remember (fun _ => none) none now w facts st).2.1.last_cognify_time =
        (shouldRebuildNow now st.last_cognify_time).2) := by
  refine ⟨?_, ?_, ?_, ?_, ?_⟩
  · rw [shouldRebuildNow, if_pos (by omega)]
  · rw [shouldRebuildNow, if_neg (by omega)]
  · rw [shouldRebuildNow, if_pos (by omega)]
  · intro now last
    by_cases hc : now - last > 30 <;> simp [shouldRebuildNow, hc]
  · intro st now w facts hinit
    by_cases hc : now - st.last_cognify_time > 30
    · constructor
      · simp [remember, hinit, addLoop_allOk, hc]
      · simp [remember, hinit, addLoop_allOk, hc, shouldRebuildNow]
    · constructor
      · simp [remember, hinit, addLoop_allOk, hc]
      · simp [remember, hinit, addLoop_allOk, hc, shouldRebuildNow]

/-- C1 witness: the amended statement holds at the concrete `t0 = 40`. -/
theorem coalescer_strict_window_grant_witness :
    (40 : Int) > 30 ∧
    (shouldRebuildNow 40 0 = (true, 40) ∧
      shouldRebuildNow (40 + 10) 40 = (false, 40) ∧
      shouldRebuildNow (40 + 31) 40 = (true, 40 + 31) ∧
      (∀ now last : Int,
        ((shouldRebuildNow now last).1 = true ↔ now - last > 30) ∧
        ((shouldRebuildNow now last).1 = true →
          (shouldRebuildNow now last).2 = now) ∧
        ((shouldRebuildNow now last).1 = false →
          (shouldRebuildNow now last).2 = last)) ∧
      (∀ (st : ServiceState) (now : Int) (w : Str) (facts : List Str),
        st.cognee_initialized = true →
        ((EngineOp.cognify ∈
            (remember (fun _ => none) none now w facts st).2.2) ↔
          now - st.last_cognify_time > 30) ∧
        (remember (fun _ => none) none now w facts st).2.1.last_cognify_time =
          (shouldRebuildNow now st.last_cognify_time).2)) :=
  ⟨by decide, coalescer_strict_window_grant 40 (by decide)⟩

/-- C2, counterexample to the claim as stated: for the delimiter-free
world_id `"a"` and the fact `"[WORLD:a] x"` — a fact is an arbitrary
caller-supplied string — untagging the tagged fact does not return the
fact: line 269 is `str.replace`, which removes **every** occurrence of
the marker, so the marker inside the fact is removed too. -/
theorem untag_tag_roundtrip_fails_on_marker_fact :
    (("a".toList).all fun c =>
      !(c == '[') && !(c == ']') && !(c == ':') && !(c == ' ')) = true ∧
    untagText "a".toList (tagFact "a".toList "[WORLD:a] x".toList)
      ≠ "[WORLD:a] x".toList ∧
    untagText "a".toList (tagFact "a".toList "[WORLD:a] x".toList)
      = "x".toList := by
  refine ⟨by decide, by decide, by decide⟩

/-- C2 (amended: the restriction must fall on the fact, not only the
world_id — untagging removes every occurrence of the marker, so the
round trip holds exactly for facts in which the marker
`"[WORLD:<w>] "` does not occur): for every world_id `w` and every fact
`f` free of the marker of `w`, `untag(tag(f, w), w) = f`. -/
theorem untag_tag_roundtrip_marker_free (w f : Str)
    (h : occursIn (worldTag w) f = false) :
    untagText w (tagFact w f) = f :=
  untag_tag w f h

/-- C2 witness: the round trip at `w = "a"`, `f = "xy"`. -/
theorem untag_tag_roundtrip_marker_free_witness :
    occursIn (worldTag "a".toList) "xy".toList = false ∧
    untagText "a".toList (tagFact "a".toList "xy".toList) = "xy".toList :=
  ⟨by decide, untag_tag_roundtrip_marker_free "a".toList "xy".toList (by decide)⟩

/-- C3: if a rebuild is granted during a `remember` call (elapsed time
strictly past the window) and the rebuild then fails, the watermark is
not advanced — line 196 (`_last_cognify_time = now`) only runs after
`await cognee.cognify()` returned — indeed the whole service state is
unchanged, and the error propagates.  Consequently a later write
attempt, at any `later ≥ now`, is granted again and retries the rebuild
immediately instead of waiting a full window. -/
theorem rebuild_failure_leaves_watermark
    (st : ServiceState) (now later : Int) (w : Str) (facts : List Str)
    (e : Str) (hinit : st.cognee_initialized = true)
    (hgrant : now - st.last_cognify_time > 30) (hlater : now ≤ later) :
    (remember (fun _ => none) (some e) now w facts st).2.1 = st ∧
    EngineOp.cognify ∈ (remember (fun _ => none) (some e) now w facts st).2.2 ∧
    (remember (fun _ => none) (some e) now w facts st).1
      = Except.error ⟨500, "Failed to store facts: ".toList ++ e⟩ ∧
    EngineOp.cognify ∈ (remember (fun _ => none) none later w facts st).2.2 := by
  have hgrant' : later - st.last_cognify_time > 30 := by omega
  refine ⟨?_, ?_, ?_, ?_⟩
  · simp [remember, hinit, addLoop_allOk, hgrant]
  · simp [remember, hinit, addLoop_allOk, hgrant]
  · simp [remember, hinit, addLoop_allOk, hgrant]
  · simp [remember, hinit, addLoop_allOk, hgrant']

/-- C3 witness: ready state with watermark 0, a granted rebuild at time
100 that fails with message `"boom"`, retried at time 100. -/
theorem rebuild_failure_leaves_watermark_witness :
    (⟨true, 0, []⟩ : ServiceState).cognee_initialized = true ∧
    (100 : Int) - (⟨true, 0, []⟩ : ServiceState).last_cognify_time > 30 ∧
    (100 : Int) ≤ 100 ∧
    ((remember (fun _ => none) (some "boom".toList) 100 "w".toList
        ["a".toList] ⟨true, 0, []⟩).2.1 = ⟨true, 0, []⟩ ∧
      EngineOp.cognify ∈ (remember (fun _ => none) (some "boom".toList) 100
        "w".toList ["a".toList] ⟨true, 0, []⟩).2.2 ∧
      (remember (fun _ => none) (some "boom".toList) 100 "w".toList
        ["a".toList] ⟨true, 0, []⟩).1
        = Except.error ⟨500, "Failed to store facts: ".toList ++ "boom".toList⟩ ∧
      EngineOp.cognify ∈ (remember (fun _ => none) none 100 "w".toList
        ["a".toList] ⟨true, 0, []⟩).2.2) :=
  ⟨by decide, by decide, by decide,
    rebuild_failure_leaves_watermark ⟨true, 0, []⟩ 100 100 "w".toList
      ["a".toList] "boom".toList (by decide) (by decide) (by decide)⟩

/-- C4, evaluation of the code at the failing input: in the ready state
(watermark 0), a `remember` at time 100 with the single fact `"a"`
whose `add` succeeds but whose granted rebuild fails (`str(e) =
"boom"`) does **not** return success with `facts_stored = 1`: the
`cognify` exception falls into the handler at lines 214-220, so the
call surfaces HTTP 500 and the cache mirror records nothing, although
the fact was already accepted by the engine (`add` appears in the
trace).  The spec (§4.2, §7) requires the already-stored write to be
counted as stored; the code contradicts it. -/
theorem rebuild_failure_fails_remember :
    (remember (fun _ => none) (some "boom".toList) 100 "w".toList
        ["a".toList] ⟨true, 0, []⟩).1
      = Except.error ⟨500, "Failed to store facts: boom".toList⟩ ∧
    (remember (fun _ => none) (some "boom".toList) 100 "w".toList
        ["a".toList] ⟨true, 0, []⟩).2.1.world_memories = [] ∧
    EngineOp.add (tagFact "w".toList "a".toList)
      ∈ (remember (fun _ => none) (some "boom".toList) 100 "w".toList
        ["a".toList] ⟨true, 0, []⟩).2.2 := by
  refine ⟨by decide, by decide, by decide⟩

/-- C5: when the readiness flag is down (engine init failed), every
`remember`, `recall` and `clear_world` call fails with the 503
`NotReady` error, leaves the whole state untouched and performs no
engine operation, while `health_check` still answers (it is a total
function, the transport returns it with HTTP 200) and reports status
`"unhealthy"`. -/
theorem degraded_gating
    (st : ServiceState) (addErr : Str → Option Str) (cognifyErr : Option Str)
    (now : Int) (w q ts : Str) (facts : List Str) (lim : Nat)
    (searchRes : Except Str (List Str))
    (h : st.cognee_initialized = false) :
    remember addErr cognifyErr now w facts st
      = (Except.error ⟨503, notReadyDetail⟩, st, []) ∧
    «recall» searchRes w q lim st
      = (Except.error ⟨503, notReadyDetail⟩, st, []) ∧
    clear_world w st = (Except.error ⟨503, notReadyDetail⟩, st, []) ∧
    (health_check ts st).status = "unhealthy".toList := by
  refine ⟨?_, ?_, ?_, ?_⟩
  · simp [remember, h]
  · simp [«recall», h]
  · simp [clear_world, h]
  · simp [health_check, h]

/-- C5 witness: the degraded state `⟨false, 0, []⟩` at concrete
arguments. -/
theorem degraded_gating_witness :
    (⟨false, 0, []⟩ : ServiceState).cognee_initialized = false ∧
    (remember (fun _ => none) none 0 "w".toList ["a".toList] ⟨false, 0, []⟩
        = (Except.error ⟨503, notReadyDetail⟩, ⟨false, 0, []⟩, []) ∧
      «recall» (Except.ok []) "w".toList "q".toList 5 ⟨false, 0, []⟩
        = (Except.error ⟨503, notReadyDetail⟩, ⟨false, 0, []⟩, []) ∧
      clear_world "w".toList ⟨false, 0, []⟩
        = (Except.error ⟨503, notReadyDetail⟩, ⟨false, 0, []⟩, []) ∧
      (health_check "t".toList ⟨false, 0, []⟩).status = "unhealthy".toList) :=
  ⟨by decide,
    degraded_gating ⟨false, 0, []⟩ (fun _ => none) none 0 "w".toList
      "q".toList "t".toList ["a".toList] 5 (Except.ok []) (by decide)⟩

/-- C6, evaluation of the code at the failing interleaving: two
`remember` handlers run their coalescer sections concurrently at time
100 with the watermark at 0 (both within one window of each other).
Under the schedule "task 1 checks, task 2 checks, task 1 resumes,
task 2 resumes" — a legal asyncio interleaving, because
`await cognee.cognify()` (line 195) suspends the handler *before* the
watermark write at line 196 — both tasks observe the stale watermark,
both window tests pass, and `cognee.cognify()` is invoked twice, not
once.  The check-and-update is not a single atomic step, contradicting
the claim (and §4.2/§5 of the spec, whose §9 notes that exactly this
naive read-then-write reproduces the race). -/
theorem concurrent_remember_double_rebuild :
    (runSched [true, false, true, false]
        ⟨⟨0, 0⟩, ⟨CoalescePC.atCheck, 100⟩,
          ⟨CoalescePC.atCheck, 100⟩⟩).shared.cognify_count = 2 ∧
    (runSched [true, false, true, false]
        ⟨⟨0, 0⟩, ⟨CoalescePC.atCheck, 100⟩,
          ⟨CoalescePC.atCheck, 100⟩⟩).task1.pc = CoalescePC.finished ∧
    (runSched [true, false, true, false]
        ⟨⟨0, 0⟩, ⟨CoalescePC.atCheck, 100⟩,
          ⟨CoalescePC.atCheck, 100⟩⟩).task2.pc = CoalescePC.finished ∧
    (2 : Nat) ≠ 1 := by
  refine ⟨by decide, by decide, by decide, by decide⟩

/-- C7, counterexample to the claim as stated: `clear_world` does not
return the number of facts the entry held.  Clearing the world `"w"`
holding 2 facts and clearing it in a state where it was never written
produce the **identical** response (lines 325-329 build the response
from `world_id` alone), although the held counts are 2 and 0 — so no
`clearedCount` is returned to the caller; the count is only computed
for the server-side log (line 315). -/
theorem clear_world_response_count_free :
    (clear_world "w".toList
        ⟨true, 0, [("w".toList, ["a".toList, "b".toList])]⟩).1
      = (clear_world "w".toList ⟨true, 0, []⟩).1 ∧
    loggedClearCount ⟨true, 0, [("w".toList, ["a".toList, "b".toList])]⟩
      "w".toList = 2 ∧
    loggedClearCount ⟨true, 0, []⟩ "w".toList = 0 := by
  refine ⟨by decide, by decide, by decide⟩

/-- C7 (amended: the cleared-count is computed only for the server-side
log, not returned — the response carries `success` and a message):
once readiness is satisfied, `clear_world` never errors: it returns the
success response, removes the world's cache-mirror entry if present
(the internally logged count being the number of facts held, 0 for a
world never written), and is idempotent — clearing an already-cleared
(or never-written) world succeeds identically and is a no-op on the
state. -/
theorem clear_world_idempotent_success
    (st : ServiceState) (w : Str) (hinit : st.cognee_initialized = true)
    (hkeys : (st.world_memories.map Prod.fst).Nodup) :
    (clear_world w st).1
      = Except.ok ⟨true, w, "Cleared memory cache for world ".toList ++ w⟩ ∧
    lookupWorld (clear_world w st).2.1.world_memories w = none ∧
    clear_world w (clear_world w st).2.1 = clear_world w st ∧
    loggedClearCount st w = ((lookupWorld st.world_memories w).getD []).length ∧
    loggedClearCount (clear_world w st).2.1 w = 0 := by
  refine ⟨?_, ?_, ?_, rfl, ?_⟩
  · simp [clear_world, hinit]
  · simp only [clear_world, hinit, Bool.true_eq_false, if_false]
    exact lookupWorld_eraseWorld_self _ _ hkeys
  · simp only [clear_world, hinit, Bool.true_eq_false, if_false]
    rw [eraseWorld_of_lookup_none _ _ (lookupWorld_eraseWorld_self _ _ hkeys)]
  · simp only [loggedClearCount, clear_world, hinit, Bool.true_eq_false,
      if_false]
    rw [lookupWorld_eraseWorld_self _ _ hkeys]
    rfl

/-- C7 witness: the concrete ready state holding 2 facts for `"w"`. -/
theorem clear_world_idempotent_success_witness :
    (⟨true, 0, [("w".toList, ["a".toList, "b".toList])]⟩ :
        ServiceState).cognee_initialized = true ∧
    (((⟨true, 0, [("w".toList, ["a".toList, "b".toList])]⟩ :
        ServiceState).world_memories.map Prod.fst).Nodup) ∧
    ((clear_world "w".toList
        ⟨true, 0, [("w".toList, ["a".toList, "b".toList])]⟩).1
      = Except.ok ⟨true, "w".toList,
          "Cleared memory cache for world ".toList ++ "w".toList⟩ ∧
      lookupWorld (clear_world "w".toList
        ⟨true, 0, [("w".toList, ["a".toList, "b".toList])]⟩).2.1.world_memories
        "w".toList = none ∧
      clear_world "w".toList (clear_world "w".toList
          ⟨true, 0, [("w".toList, ["a".toList, "b".toList])]⟩).2.1
        = clear_world "w".toList
          ⟨true, 0, [("w".toList, ["a".toList, "b".toList])]⟩ ∧
      loggedClearCount ⟨true, 0, [("w".toList, ["a".toList, "b".toList])]⟩
          "w".toList
        = ((lookupWorld (⟨true, 0, [("w".toList, ["a".toList,
            "b".toList])]⟩ : ServiceState).world_memories
            "w".toList).getD []).length ∧
      loggedClearCount (clear_world "w".toList
        ⟨true, 0, [("w".toList, ["a".toList, "b".toList])]⟩).2.1
        "w".toList = 0) :=
  ⟨by decide, by decide,
    clear_world_idempotent_success
      ⟨true, 0, [("w".toList, ["a".toList, "b".toList])]⟩ "w".toList
      (by decide) (by decide)⟩

/-- C8: frame condition of `clear_world` in the ready state: it makes
no engine call (empty trace — lines 319-321 note Cognee data is left
untouched), preserves the readiness flag and the coalescer watermark,
and its only effect on the cache mirror is removing `w`'s binding: the
binding of every other world_id is unchanged. -/
theorem clear_world_frame
    (st : ServiceState) (w : Str) (hinit : st.cognee_initialized = true) :
    (clear_world w st).2.2 = [] ∧
    (clear_world w st).2.1.cognee_initialized = st.cognee_initialized ∧
    (clear_world w st).2.1.last_cognify_time = st.last_cognify_time ∧
    (clear_world w st).2.1.world_memories = eraseWorld st.world_memories w ∧
    (∀ w' : Str, w' ≠ w →
      lookupWorld (clear_world w st).2.1.world_memories w'
        = lookupWorld st.world_memories w') := by
  refine ⟨by simp [clear_world, hinit], by simp [clear_world, hinit],
    by simp [clear_world, hinit], by simp [clear_world, hinit], ?_⟩
  intro w' hw
  simp only [clear_world, hinit, Bool.true_eq_false, if_false]
  exact lookupWorld_eraseWorld_ne _ _ _ hw

/-- C8 witness: a ready state holding the worlds `"w"` and `"v"`. -/
theorem clear_world_frame_witness :
    (⟨true, 7, [("w".toList, ["a".toList]), ("v".toList, ["b".toList])]⟩ :
        ServiceState).cognee_initialized = true ∧
    ((clear_world "w".toList ⟨true, 7, [("w".toList, ["a".toList]),
        ("v".toList, ["b".toList])]⟩).2.2 = [] ∧
      (clear_world "w".toList ⟨true, 7, [("w".toList, ["a".toList]),
        ("v".toList, ["b".toList])]⟩).2.1.cognee_initialized
        = (⟨true, 7, [("w".toList, ["a".toList]), ("v".toList,
            ["b".toList])]⟩ : ServiceState).cognee_initialized ∧
      (clear_world "w".toList ⟨true, 7, [("w".toList, ["a".toList]),
        ("v".toList, ["b".toList])]⟩).2.1.last_cognify_time
        = (⟨true, 7, [("w".toList, ["a".toList]), ("v".toList,
            ["b".toList])]⟩ : ServiceState).last_cognify_time ∧
      (clear_world "w".toList ⟨true, 7, [("w".toList, ["a".toList]),
        ("v".toList, ["b".toList])]⟩).2.1.world_memories
        = eraseWorld (⟨true, 7, [("w".toList, ["a".toList]), ("v".toList,
            ["b".toList])]⟩ : ServiceState).world_memories "w".toList ∧
      (∀ w' : Str, w' ≠ "w".toList →
        lookupWorld (clear_world "w".toList ⟨true, 7, [("w".toList,
          ["a".toList]), ("v".toList, ["b".toList])]⟩).2.1.world_memories w'
          = lookupWorld (⟨true, 7, [("w".toList, ["a".toList]), ("v".toList,
              ["b".toList])]⟩ : ServiceState).world_memories w')) :=
  ⟨by decide,
    clear_world_frame
      ⟨true, 7, [("w".toList, ["a".toList]), ("v".toList, ["b".toList])]⟩
      "w".toList (by decide)⟩

/-- C9, counterexample to the claim as stated: the 500 details built at
lines 219 and 287 are f-strings interpolating `str(e)`, so the raw
internal exception text **does** reach the caller.  With an engine
failure whose `str(e)` is `"boom"`, the `remember` detail is
`"Failed to store facts: boom"` and the `recall` detail is
`"Failed to query facts: boom"` — both contain the exception text
(only the traceback stays in the server-side log). -/
theorem engine_error_detail_leaks_message :
    (remember (fun _ => some "boom".toList) none 100 "w".toList ["a".toList]
        ⟨true, 0, []⟩).1
      = Except.error ⟨500, "Failed to store facts: boom".toList⟩ ∧
    occursIn "boom".toList "Failed to store facts: boom".toList = true ∧
    («recall» (Except.error "boom".toList) "w".toList "q".toList 5
        ⟨true, 0, []⟩).1
      = Except.error ⟨500, "Failed to query facts: boom".toList⟩ ∧
    occursIn "boom".toList "Failed to query facts: boom".toList = true := by
  refine ⟨by decide, by decide, by decide, by decide⟩

/-- C9 (amended: the surfaced detail is a fixed operation-specific
prefix followed by the exception's message text — the message is **not**
sanitized away; only the traceback is confined to the server log): for
every engine failure with message `e`, a failing `add` or a failing
granted rebuild during `remember` surfaces
`500, "Failed to store facts: " + e`, and a failing search during
`recall` surfaces `500, "Failed to query facts: " + e`. -/
theorem engine_error_detail_format
    (st : ServiceState) (w f q e : Str) (lim : Nat) (now : Int)
    (hinit : st.cognee_initialized = true)
    (hgrant : now - st.last_cognify_time > 30) :
    (remember (fun _ => some e) none now w [f] st).1
      = Except.error ⟨500, "Failed to store facts: ".toList ++ e⟩ ∧
    (remember (fun _ => none) (some e) now w [f] st).1
      = Except.error ⟨500, "Failed to store facts: ".toList ++ e⟩ ∧
    («recall» (Except.error e) w q lim st).1
      = Except.error ⟨500, "Failed to query facts: ".toList ++ e⟩ := by
  refine ⟨?_, ?_, ?_⟩
  · simp [remember, hinit, addLoop]
  · simp [remember, hinit, addLoop_allOk, hgrant]
  · simp [«recall», hinit]

/-- C9 witness: the amended statement at the ready state with watermark
0, time 100, exception message `"boom"`. -/
theorem engine_error_detail_format_witness :
    (⟨true, 0, []⟩ : ServiceState).cognee_initialized = true ∧
    (100 : Int) - (⟨true, 0, []⟩ : ServiceState).last_cognify_time > 30 ∧
    ((remember (fun _ => some "boom".toList) none 100 "w".toList
        ["a".toList] ⟨true, 0, []⟩).1
      = Except.error ⟨500, "Failed to store facts: ".toList
          ++ "boom".toList⟩ ∧
      (remember (fun _ => none) (some "boom".toList) 100 "w".toList
        ["a".toList] ⟨true, 0, []⟩).1
      = Except.error ⟨500, "Failed to store facts: ".toList
          ++ "boom".toList⟩ ∧
      («recall» (Except.error "boom".toList) "w".toList "q".toList 5
        ⟨true, 0, []⟩).1
      = Except.error ⟨500, "Failed to query facts: ".toList
          ++ "boom".toList⟩) :=
  ⟨by decide, by decide,
    engine_error_detail_format ⟨true, 0, []⟩ "w".toList "a".toList
      "q".toList "boom".toList 5 100 (by decide) (by decide)⟩

/-- C10: atomicity of `remember` on failure — whenever a `remember`
call returns an error (in the ready state that happens exactly when an
engine operation raised: an `add` at line 188 or the granted `cognify`
at line 195), the entire service state is returned unchanged: the cache
mirror gains no entry and is not extended (lines 200-203 run only after
every engine call has succeeded) and the coalescer watermark is left as
it was. -/
theorem remember_error_preserves_state
    (addErr : Str → Option Str) (cognifyErr : Option Str) (now : Int)
    (w : Str) (facts : List Str) (st : ServiceState) (err : HttpError)
    (h : (remember addErr cognifyErr now w facts st).1 = Except.error err) :
    (remember addErr cognifyErr now w facts st).2.1 = st := by
  rcases hadds : addLoop addErr (facts.map fun fact => tagFact w fact)
    with ⟨res, tr⟩
  by_cases hinit : st.cognee_initialized = false
  · simp [remember, hinit]
  · cases res with
    | some e => simp [remember, hinit, hadds]
    | none =>
      by_cases hg : now - st.last_cognify_time > 30
      · cases cognifyErr with
        | some e => simp [remember, hinit, hadds, hg]
        | none =>
          exfalso
          simp [remember, hinit, hadds, hg] at h
      · exfalso
        simp [remember, hinit, hadds, hg] at h

/-- C10 witness: a ready state with one world already cached and a
`remember` whose first `add` raises; the state (mirror and watermark)
is returned intact. -/
theorem remember_error_preserves_state_witness :
    (remember (fun _ => some "boom".toList) none 100 "w".toList
        ["a".toList] ⟨true, 3, [("v".toList, ["b".toList])]⟩).1
      = Except.error ⟨500, "Failed to store facts: boom".toList⟩ ∧
    (remember (fun _ => some "boom".toList) none 100 "w".toList
        ["a".toList] ⟨true, 3, [("v".toList, ["b".toList])]⟩).2.1
      = ⟨true, 3, [("v".toList, ["b".toList])]⟩ :=
  ⟨by decide,
    remember_error_preserves_state (fun _ => some "boom".toList) none 100
      "w".toList ["a".toList] ⟨true, 3, [("v".toList, ["b".toList])]⟩
      ⟨500, "Failed to store facts: boom".toList⟩ (by decide)⟩

end MemoryService
